import Mathlib

/-!
Shallow embedding of `src/script.js` (class `TurnJSBook`): a page-flip
viewer that sequentially preloads page images, initializes the Turn.js
widget, and keeps navigation buttons and page-edge shadow overlays in
sync with the widget's reported state.

DOM pages are modelled by the pair of shadow classes they may carry
(`left-shadow` / `right-shadow`); the flipbook container is a list of
such pages in append order.  jQuery's `.eq(i).addClass(c)` is modelled
by `eqAddClass`, including jQuery's negative-index-from-the-end and
out-of-range-is-a-no-op semantics.
-/

namespace TurnJSBook

/-- Constant from the constructor: `this.totalPages = 21`. -/
def totalPages : Nat := 21

/-- The shadow classes a `.page` element may carry. -/
structure PageClasses where
  leftShadow : Bool
  rightShadow : Bool
deriving DecidableEq, Repr

/-- A page with neither shadow class. -/
def noShadow : PageClasses := { leftShadow := false, rightShadow := false }

/-- `addClass('left-shadow')` on one element. -/
def setLeft (c : PageClasses) : PageClasses := { c with leftShadow := true }

/-- `addClass('right-shadow')` on one element. -/
def setRight (c : PageClasses) : PageClasses := { c with rightShadow := true }

/-- Apply `f` to the element at position `n` (0-based); no-op past the end. -/
def modifyAt (f : PageClasses → PageClasses) : Nat → List PageClasses → List PageClasses
  | _, [] => []
  | 0, p :: ps => f p :: ps
  | n + 1, p :: ps => p :: modifyAt f n ps

/-- jQuery `.eq(idx).addClass(...)`: a negative `idx` counts from the end of
the matched set, and an out-of-range `idx` selects nothing (no-op). -/
def eqAddClass (ps : List PageClasses) (idx : Int) (f : PageClasses → PageClasses) :
    List PageClasses :=
  if 0 ≤ idx then modifyAt f idx.toNat ps
  else
    let j : Int := (ps.length : Int) + idx
    if 0 ≤ j then modifyAt f j.toNat ps else ps

/-- `find('.page').removeClass('left-shadow right-shadow')`: every page loses
both shadow classes. -/
def clearShadows (ps : List PageClasses) : List PageClasses :=
  ps.map (fun _ => noShadow)

/-- The element of the container at position `j`, `noShadow` past the end. -/
def classesAt (ps : List PageClasses) (j : Nat) : PageClasses :=
  ps.getD j noShadow

/-- The branch of `updatePageShadows` that runs after the initial
`removeClass`: dispatch on the viewport `view` returned by
`this.flipbook.turn('view')` (`none` models a null view). -/
def applyShadows (page : Nat) (view : Option (List Nat)) (ps : List PageClasses) :
    List PageClasses :=
  match view with
  | none => ps
  | some [] => ps
  | some [a] =>
      if page = 1 then eqAddClass ps ((a : Int) - 1) setRight
      else eqAddClass ps ((a : Int) - 1) setLeft
  | some (a :: b :: _) =>
      let withLeft :=
        if 1 < page ∧ 0 ≤ (a : Int) - 1 then eqAddClass ps ((a : Int) - 1) setLeft else ps
      if 0 ≤ (b : Int) - 1 then eqAddClass withLeft ((b : Int) - 1) setRight else withLeft

/-- `updatePageShadows(page)`: first remove every shadow class from every
page, then reapply according to the current viewport. -/
def updatePageShadows (page : Nat) (view : Option (List Nat)) (ps : List PageClasses) :
    List PageClasses :=
  applyShadows page view (clearShadows ps)

/-- `padStart(w, '0')`: left-pad with the character `'0'` up to width `w`;
a string already at least `w` long is returned unchanged. -/
def padStartZero (w : Nat) (s : String) : String :=
  if w ≤ s.length then s
  else String.mk (List.replicate (w - s.length) '0') ++ s

/-- The `imagePath` computed in the `createPages` loop: index 0 is the cover
file, every later index uses the zero-padded numeric pattern. -/
def imagePath (i : Nat) : String :=
  if i = 0 then "individual_pages/page_000_cover.jpg"
  else "individual_pages/page_" ++ padStartZero 3 (Nat.repr i) ++ ".jpg"

/-- The page element built for index `i`: a `.page` div wrapping an `<img>`
with the computed `src` and the alt text `Page ${i + 1}`. -/
structure PageElem where
  src : String
  alt : String
deriving DecidableEq, Repr

/-- The element `createPages` appends for index `i`. -/
def mkPage (i : Nat) : PageElem :=
  { src := imagePath i, alt := "Page " ++ Nat.repr (i + 1) }

/-- The two DOM signals an image element can deliver to the installed
`onload` / `onerror` handlers. -/
inductive ImgSignal
  | sigLoad
  | sigError
deriving DecidableEq, Repr

/-- Environment of one `loadImage` call: whether `img.complete` already held
when the promise executor ran, and the first signal the browser delivers
afterwards together with its arrival time in milliseconds (`none` when no
signal ever arrives). -/
structure ImgEnv where
  complete : Bool
  firstSignal : Option (ImgSignal × Nat)
deriving DecidableEq, Repr

/-- The two rejection reasons `loadImage` can produce. -/
inductive LoadError
  | timeout (src : String)
  | failure (src : String)
deriving DecidableEq, Repr

/-- The `Error` message text passed to `reject`. -/
def messageOfLoadError : LoadError → String
  | .timeout src => "Image load timeout: " ++ src
  | .failure src => "Failed to load image: " ++ src

deriving instance DecidableEq for Except

/-- How one `loadImage` promise settled, plus whether the 30 s timeout timer
is still pending after settlement. -/
structure LoadSettle where
  result : Except LoadError Unit
  timerPendingAfter : Bool
deriving DecidableEq, Repr

/-- `loadImage(img)`: the executor schedules a 30 000 ms timeout, installs
`onload` / `onerror` handlers, and resolves synchronously when
`img.complete` holds.  Otherwise the first event wins: a signal strictly
before the 30 000 ms mark settles the promise (load resolves, error
rejects) and cancels the timer via `clearTimeout`; with no earlier signal
the timer fires and rejects with the timeout error, after which the timer
is no longer pending. -/
def loadImage (env : ImgEnv) (src : String) : LoadSettle :=
  if env.complete then { result := .ok (), timerPendingAfter := false }
  else
    match env.firstSignal with
    | none => { result := .error (.timeout src), timerPendingAfter := false }
    | some (sig, t) =>
      if t < 30000 then
        match sig with
        | .sigLoad => { result := .ok (), timerPendingAfter := false }
        | .sigError => { result := .error (.failure src), timerPendingAfter := false }
      else { result := .error (.timeout src), timerPendingAfter := false }

/-- Observable events of the preload pipeline: a load request being issued
for index `i`, and the page for index `i` being appended to the container. -/
inductive Ev
  | loadStart (i : Nat)
  | append (i : Nat)
deriving DecidableEq, Repr

/-- Loop body of `createPages`, starting at index `i` with `k` iterations
left: issue the load for index `i`, await it, and only on success append
the page and continue with index `i + 1`.  Returns the event trace, the
pages appended to the container, and the first error if any. -/
def createPagesGo (load : Nat → Except LoadError Unit) : Nat → Nat →
    List Ev × List PageElem × Option LoadError
  | _, 0 => ([], [], none)
  | i, k + 1 =>
    match load i with
    | .error e => ([Ev.loadStart i], [], some e)
    | .ok _ =>
      let r := createPagesGo load (i + 1) k
      (Ev.loadStart i :: Ev.append i :: r.1, mkPage i :: r.2.1, r.2.2)

/-- `createPages()` for page count `n` (the source runs it with
`n = totalPages`), with the settling of each awaited `loadImage` call
abstracted as `load`. -/
def createPagesRun (load : Nat → Except LoadError Unit) (n : Nat) :
    List Ev × List PageElem × Option LoadError :=
  createPagesGo load 0 n

/-- Which of the two global dependencies are defined when
`initializeTurnJS` runs. -/
structure Deps where
  jqueryDefined : Bool
  turnDefined : Bool
deriving DecidableEq, Repr

/-- The steps `initializeTurnJS` performs after its dependency checks:
`flipbook.turn({...})`, `updateUI(1)`, and `this.isLoaded = true`. -/
inductive InitStep
  | turnInit
  | uiUpdate (page : Nat)
  | setLoadedTrue
deriving DecidableEq, Repr

/-- `initializeTurnJS()`: throw if jQuery is undefined, then if the Turn.js
plugin is undefined, and only otherwise initialize the widget, set the
initial page, and set the ready flag. -/
def initializeTurnJS (deps : Deps) : List InitStep × Except String Unit :=
  if deps.jqueryDefined = false then ([], .error "jQuery is not loaded")
  else if deps.turnDefined = false then ([], .error "Turn.js is not loaded")
  else ([InitStep.turnInit, InitStep.uiUpdate 1, InitStep.setLoadedTrue], .ok ())

/-- Controller state observable after `init()` finishes. -/
structure CtrlState where
  isLoaded : Bool
  eventsBound : Bool
  pagesAppended : List PageElem
  loadingHidden : Bool
  errorShown : Option String
deriving DecidableEq, Repr

/-- `init()`: `createPages` then `initializeTurnJS` then `bindEvents` then
`hideLoading`; any thrown error short-circuits to the `catch` block, which
shows the error message and leaves the ready flag unset and the navigation
events unbound. -/
def initRun (n : Nat) (load : Nat → Except LoadError Unit) (deps : Deps) : CtrlState :=
  let r := createPagesRun load n
  match r.2.2 with
  | some e =>
      { isLoaded := false, eventsBound := false, pagesAppended := r.2.1,
        loadingHidden := false, errorShown := some (messageOfLoadError e) }
  | none =>
      match (initializeTurnJS deps).2 with
      | .error msg =>
          { isLoaded := false, eventsBound := false, pagesAppended := r.2.1,
            loadingHidden := false, errorShown := some msg }
      | .ok _ =>
          { isLoaded := true, eventsBound := true, pagesAppended := r.2.1,
            loadingHidden := true, errorShown := none }

/-- The navigation inputs bound by `bindEvents`: the two button clicks and
any keydown (with its `key` string). -/
inductive NavInput
  | prevClick
  | nextClick
  | keydown (key : String)
deriving DecidableEq, Repr

/-- Commands the handlers may issue to the widget
(`turn('previous')` / `turn('next')`). -/
inductive WidgetCmd
  | previous
  | next
deriving DecidableEq, Repr

/-- The handlers installed by `bindEvents`: every path is guarded on
`this.isLoaded` and otherwise issues exactly one widget command (or none,
for an unrecognized key). -/
def handleNav (isLoaded : Bool) (inp : NavInput) : List WidgetCmd :=
  match inp with
  | .prevClick => if isLoaded then [WidgetCmd.previous] else []
  | .nextClick => if isLoaded then [WidgetCmd.next] else []
  | .keydown k =>
      if isLoaded = false then []
      else if k = "ArrowLeft" then [WidgetCmd.previous]
      else if k = "ArrowRight" then [WidgetCmd.next]
      else []

/-- Enablement state of the two navigation buttons. -/
structure NavButtons where
  prevDisabled : Bool
  nextDisabled : Bool
deriving DecidableEq, Repr

/-- The UI state `updateUI` rewrites: button enablement and the shadow
classes of the pages in the container. -/
structure UIState where
  buttons : NavButtons
  pages : List PageClasses
deriving DecidableEq, Repr

/-- `updateUI(page)`: a falsy `page` argument (modelled as `0`) is replaced
by the widget's reported current page; then the buttons are set from
`page <= 1` / `page >= totalPages` and the shadows recomputed. -/
def updateUI (page : Nat) (queriedPage : Nat) (view : Option (List Nat))
    (s : UIState) : UIState :=
  let p := if page = 0 then queriedPage else page
  { buttons := { prevDisabled := decide (p ≤ 1), nextDisabled := decide (totalPages ≤ p) },
    pages := updatePageShadows p view s.pages }

/-- The index sequence `i, i + 1, ..., i + k - 1`. -/
def seqFrom (i : Nat) : Nat → List Nat
  | 0 => []
  | k + 1 => i :: seqFrom (i + 1) k

example :
    updatePageShadows 5 (some [4, 5])
        [noShadow, noShadow, noShadow, noShadow, noShadow] =
      [noShadow, noShadow, noShadow,
       { leftShadow := true, rightShadow := false },
       { leftShadow := false, rightShadow := true }] := by decide

example :
    updatePageShadows 1 (some [1]) [noShadow, noShadow] =
      [{ leftShadow := false, rightShadow := true }, noShadow] := by decide

theorem classesAt_nil (j : Nat) : classesAt [] j = noShadow := rfl

theorem classesAt_cons_zero (p : PageClasses) (ps : List PageClasses) :
    classesAt (p :: ps) 0 = p := rfl

theorem classesAt_cons_succ (p : PageClasses) (ps : List PageClasses) (j : Nat) :
    classesAt (p :: ps) (j + 1) = classesAt ps j := rfl

theorem modifyAt_length (f : PageClasses → PageClasses) (n : Nat) (ps : List PageClasses) :
    (modifyAt f n ps).length = ps.length := by
  induction ps generalizing n with
  | nil => cases n <;> rfl
  | cons p ps ih =>
    cases n with
    | zero => rfl
    | succ m => simpa [modifyAt] using ih m

theorem classesAt_modifyAt (f : PageClasses → PageClasses) (n j : Nat)
    (ps : List PageClasses) :
    classesAt (modifyAt f n ps) j =
      if n = j ∧ j < ps.length then f (classesAt ps j) else classesAt ps j := by
  induction ps generalizing n j with
  | nil => simp [modifyAt, classesAt_nil]
  | cons p ps ih =>
    cases n with
    | zero =>
      cases j with
      | zero => simp [modifyAt, classesAt_cons_zero]
      | succ k => simp [modifyAt, classesAt_cons_succ]
    | succ m =>
      cases j with
      | zero => simp [modifyAt, classesAt_cons_zero]
      | succ k =>
        rw [show modifyAt f (m + 1) (p :: ps) = p :: modifyAt f m ps from rfl,
          classesAt_cons_succ, classesAt_cons_succ, ih m k]
        by_cases h : m = k ∧ k < ps.length
        · obtain ⟨hm, hk⟩ := h
          have h2 : m + 1 = k + 1 ∧ k + 1 < (p :: ps).length := by
            refine ⟨by omega, ?_⟩
            simp only [List.length_cons]
            omega
          rw [if_pos ⟨hm, hk⟩, if_pos h2]
        · have h2 : ¬(m + 1 = k + 1 ∧ k + 1 < (p :: ps).length) := by
            simp only [List.length_cons]
            omega
          rw [if_neg h, if_neg h2]

theorem clearShadows_length (ps : List PageClasses) :
    (clearShadows ps).length = ps.length := by
  simp [clearShadows]

theorem clearShadows_eq_replicate (ps : List PageClasses) :
    clearShadows ps = List.replicate ps.length noShadow := by
  induction ps with
  | nil => rfl
  | cons p ps ih =>
    rw [show clearShadows (p :: ps) = noShadow :: clearShadows ps from rfl,
      List.length_cons, List.replicate_succ, ih]

theorem classesAt_clearShadows (ps : List PageClasses) (j : Nat) (h : j < ps.length) :
    classesAt (clearShadows ps) j = noShadow := by
  induction ps generalizing j with
  | nil => simp at h
  | cons p ps ih =>
    cases j with
    | zero => rfl
    | succ k =>
      rw [show clearShadows (p :: ps) = noShadow :: clearShadows ps from rfl,
        classesAt_cons_succ]
      exact ih k (by simpa using Nat.lt_of_succ_lt_succ h)

theorem eqAddClass_length (ps : List PageClasses) (idx : Int)
    (f : PageClasses → PageClasses) : (eqAddClass ps idx f).length = ps.length := by
  unfold eqAddClass
  split
  · exact modifyAt_length f _ ps
  · dsimp only
    split
    · exact modifyAt_length f _ ps
    · rfl

theorem eqAddClass_sub_one (ps : List PageClasses) (a : Nat) (h : 1 ≤ a)
    (f : PageClasses → PageClasses) :
    eqAddClass ps ((a : Int) - 1) f = modifyAt f (a - 1) ps := by
  unfold eqAddClass
  rw [if_pos (by omega)]
  have ht : ((a : Int) - 1).toNat = a - 1 := by omega
  rw [ht]

theorem applyShadows_length (page : Nat) (view : Option (List Nat))
    (ps : List PageClasses) : (applyShadows page view ps).length = ps.length := by
  cases view with
  | none => rfl
  | some v =>
    match v with
    | [] => rfl
    | [a] =>
      simp only [applyShadows]
      split
      · exact eqAddClass_length ps _ setRight
      · exact eqAddClass_length ps _ setLeft
    | a :: b :: rest =>
      simp only [applyShadows]
      split
      · rw [eqAddClass_length]
        split
        · rw [eqAddClass_length]
        · rfl
      · split
        · rw [eqAddClass_length]
        · rfl

theorem updatePageShadows_length (page : Nat) (view : Option (List Nat))
    (ps : List PageClasses) : (updatePageShadows page view ps).length = ps.length := by
  unfold updatePageShadows
  rw [applyShadows_length, clearShadows_length]

theorem classesAt_ge_length (ps : List PageClasses) (j : Nat) (h : ps.length ≤ j) :
    classesAt ps j = noShadow := by
  induction ps generalizing j with
  | nil => rfl
  | cons p ps ih =>
    cases j with
    | zero => simp at h
    | succ k =>
      rw [classesAt_cons_succ]
      exact ih k (by simp only [List.length_cons] at h; omega)

theorem leftShadow_clearShadows (ps : List PageClasses) (j : Nat) :
    (classesAt (clearShadows ps) j).leftShadow = false := by
  by_cases hj : j < ps.length
  · rw [classesAt_clearShadows ps j hj]
    rfl
  · rw [classesAt_ge_length (clearShadows ps) j (by rw [clearShadows_length]; omega)]
    rfl

theorem leftShadow_modifyAt_setRight (n j : Nat) (ps : List PageClasses) :
    (classesAt (modifyAt setRight n ps) j).leftShadow = (classesAt ps j).leftShadow := by
  rw [classesAt_modifyAt]
  split <;> rfl

theorem updatePageShadows_congr (page : Nat) (view : Option (List Nat))
    (ps qs : List PageClasses) (h : ps.length = qs.length) :
    updatePageShadows page view ps = updatePageShadows page view qs := by
  unfold updatePageShadows
  rw [clearShadows_eq_replicate, clearShadows_eq_replicate, h]

/-- C7: the shadow-overlay recompute first clears both shadow classes from
every page and is idempotent: running `updatePageShadows` twice in a row
with the same reported page and viewport produces the same class
assignment as running it once — no stale classes accumulate. -/
theorem claim7_shadow_recompute_idempotent (page : Nat) (view : Option (List Nat))
    (ps : List PageClasses) :
    updatePageShadows page view (updatePageShadows page view ps) =
      updatePageShadows page view ps :=
  updatePageShadows_congr page view _ ps (updatePageShadows_length page view ps)

/-- C1: shadow classes after a page-transition completion at reported page
`page`: in a two-page viewport `[a, b]` the right-hand page always gets
`right-shadow` and the left-hand page gets `left-shadow` exactly when
`page > 1`; a single-page viewport at `page = 1` gets only `right-shadow`;
a single-page viewport at `page = totalPages` gets only `left-shadow`. -/
theorem claim1_shadow_rule (page a b : Nat) (rest : List Nat) (ps : List PageClasses)
    (hlen : ps.length = totalPages)
    (ha1 : 1 ≤ a) (ha2 : a ≤ totalPages) (hb1 : 1 ≤ b) (hb2 : b ≤ totalPages) :
    (a ≠ b →
      classesAt (updatePageShadows page (some (a :: b :: rest)) ps) (b - 1) =
        { leftShadow := false, rightShadow := true } ∧
      classesAt (updatePageShadows page (some (a :: b :: rest)) ps) (a - 1) =
        { leftShadow := decide (1 < page), rightShadow := false }) ∧
    (page = 1 →
      ∀ j, j < totalPages →
        classesAt (updatePageShadows page (some [a]) ps) j =
          (if j = a - 1 then { leftShadow := false, rightShadow := true }
           else noShadow)) ∧
    (page = totalPages →
      ∀ j, j < totalPages →
        classesAt (updatePageShadows page (some [b]) ps) j =
          (if j = b - 1 then { leftShadow := true, rightShadow := false }
           else noShadow)) := by
  have hcl : (clearShadows ps).length = totalPages := by
    rw [clearShadows_length, hlen]
  have hc : ∀ j, j < totalPages → classesAt (clearShadows ps) j = noShadow := by
    intro j hj
    exact classesAt_clearShadows ps j (by omega)
  refine ⟨?_, ?_, ?_⟩
  · intro hab
    have e1 : updatePageShadows page (some (a :: b :: rest)) ps =
        modifyAt setRight (b - 1)
          (if 1 < page then modifyAt setLeft (a - 1) (clearShadows ps)
           else clearShadows ps) := by
      unfold updatePageShadows
      simp only [applyShadows]
      rw [if_pos (show (0 : Int) ≤ (b : Int) - 1 by omega)]
      by_cases hp : 1 < page
      · rw [if_pos ⟨hp, show (0 : Int) ≤ (a : Int) - 1 by omega⟩, if_pos hp,
          eqAddClass_sub_one _ a ha1, eqAddClass_sub_one _ b hb1]
      · rw [if_neg (fun hcon => hp hcon.1), if_neg hp, eqAddClass_sub_one _ b hb1]
    have hXlen : (if 1 < page then modifyAt setLeft (a - 1) (clearShadows ps)
        else clearShadows ps).length = totalPages := by
      split
      · rw [modifyAt_length, hcl]
      · exact hcl
    have hXb : classesAt (if 1 < page then modifyAt setLeft (a - 1) (clearShadows ps)
        else clearShadows ps) (b - 1) = noShadow := by
      split
      · rw [classesAt_modifyAt, if_neg ?_]
        · exact hc _ (by omega)
        · rintro ⟨h1, _⟩
          exact hab (by omega)
      · exact hc _ (by omega)
    constructor
    · rw [e1, classesAt_modifyAt, if_pos ⟨rfl, by rw [hXlen]; omega⟩, hXb]
      rfl
    · rw [e1, classesAt_modifyAt, if_neg ?_]
      · by_cases hp : 1 < page
        · have hd : decide (1 < page) = true := by simp [hp]
          rw [if_pos hp, classesAt_modifyAt, if_pos ⟨rfl, by rw [hcl]; omega⟩,
            hc _ (by omega), hd]
          rfl
        · have hd : decide (1 < page) = false := by simp [hp]
          rw [if_neg hp, hc _ (by omega), hd]
          rfl
      · rintro ⟨h1, _⟩
        exact hab (by omega)
  · intro hp1 j hj
    have e2 : updatePageShadows page (some [a]) ps =
        modifyAt setRight (a - 1) (clearShadows ps) := by
      unfold updatePageShadows
      simp only [applyShadows]
      rw [if_pos hp1, eqAddClass_sub_one _ a ha1]
    rw [e2, classesAt_modifyAt]
    by_cases hja : j = a - 1
    · rw [if_pos ⟨hja.symm, by rw [hcl]; omega⟩, hc j hj, if_pos hja]
      rfl
    · rw [if_neg ?_, hc j hj, if_neg hja]
      rintro ⟨h1, _⟩
      exact hja h1.symm
  · intro hpt j hj
    have hne : page ≠ 1 := by rw [hpt]; decide
    have e3 : updatePageShadows page (some [b]) ps =
        modifyAt setLeft (b - 1) (clearShadows ps) := by
      unfold updatePageShadows
      simp only [applyShadows]
      rw [if_neg hne, eqAddClass_sub_one _ b hb1]
    rw [e3, classesAt_modifyAt]
    by_cases hjb : j = b - 1
    · rw [if_pos ⟨hjb.symm, by rw [hcl]; omega⟩, hc j hj, if_pos hjb]
      rfl
    · rw [if_neg ?_, hc j hj, if_neg hjb]
      rintro ⟨h1, _⟩
      exact hjb h1.symm

/-- Witness for C1 at the mid-book spread of the spec: reported page 5,
viewport `[4, 5]`, 21 blank pages — 0-based page 3 gets `left-shadow`. -/
theorem claim1_shadow_rule_witness :
    classesAt (updatePageShadows 5 (some [4, 5]) (List.replicate 21 noShadow)) 3 =
      { leftShadow := true, rightShadow := false } :=
  ((claim1_shadow_rule 5 4 5 [] (List.replicate 21 noShadow) (by decide) (by decide)
      (by decide) (by decide) (by decide)).1 (by decide)).2

/-- C10: a null or empty viewport leaves every page with no shadow class at
all, and in a two-page viewport whose reported left page is `0` the
`left-shadow` guard `leftPageIndex >= 0` fails, so no page carries
`left-shadow` even though the reported page exceeds 1. -/
theorem claim10_null_view_and_zero_left_page (page b : Nat) (rest : List Nat)
    (ps : List PageClasses) (hp : 1 < page) :
    updatePageShadows page none ps = List.replicate ps.length noShadow ∧
    updatePageShadows page (some []) ps = List.replicate ps.length noShadow ∧
    (∀ j, (classesAt (updatePageShadows page (some (0 :: b :: rest)) ps) j).leftShadow
        = false) := by
  refine ⟨?_, ?_, ?_⟩
  · unfold updatePageShadows
    simp only [applyShadows]
    exact clearShadows_eq_replicate ps
  · unfold updatePageShadows
    simp only [applyShadows]
    exact clearShadows_eq_replicate ps
  · intro j
    have e : updatePageShadows page (some (0 :: b :: rest)) ps =
        (if 0 ≤ (b : Int) - 1 then
          eqAddClass (clearShadows ps) ((b : Int) - 1) setRight
         else clearShadows ps) := by
      unfold updatePageShadows
      simp only [applyShadows]
      have hno : ¬(1 < page ∧ (0 : Int) ≤ ((0 : Nat) : Int) - 1) := by
        rintro ⟨_, hcon⟩
        simp at hcon
      rw [if_neg hno]
    rw [e]
    split
    · rename_i hb
      have hb1 : 1 ≤ b := by omega
      rw [eqAddClass_sub_one _ b hb1, leftShadow_modifyAt_setRight,
        leftShadow_clearShadows]
    · exact leftShadow_clearShadows ps j

/-- Witness for C10 at reported page 2, a two-element container, right
viewport page 2 and reported left page 0. -/
theorem claim10_witness :
    updatePageShadows 2 none [noShadow, noShadow] = List.replicate 2 noShadow :=
  (claim10_null_view_and_zero_left_page 2 2 [] [noShadow, noShadow] (by decide)).1

/-- C6: after `updateUI` with reported page `P ≥ 1`, the prev button is
disabled iff `P ≤ 1` and the next button is disabled iff `P ≥ totalPages`;
in particular at `P = 1` prev is disabled and next enabled, and at
`P = totalPages` next is disabled and prev enabled. -/
theorem claim6_nav_button_enablement (P q : Nat) (view : Option (List Nat))
    (s : UIState) (hP : 1 ≤ P) :
    ((updateUI P q view s).buttons.prevDisabled = true ↔ P ≤ 1) ∧
    ((updateUI P q view s).buttons.nextDisabled = true ↔ totalPages ≤ P) ∧
    (P = 1 → (updateUI P q view s).buttons.prevDisabled = true ∧
      (updateUI P q view s).buttons.nextDisabled = false) ∧
    (P = totalPages → (updateUI P q view s).buttons.nextDisabled = true ∧
      (updateUI P q view s).buttons.prevDisabled = false) := by
  have hP0 : ¬(P = 0) := by omega
  refine ⟨?_, ?_, ?_, ?_⟩
  · simp [updateUI, hP0]
  · simp [updateUI, hP0]
  · intro h1
    subst h1
    exact ⟨by simp [updateUI], by simp [updateUI, totalPages]⟩
  · intro ht
    subst ht
    exact ⟨by simp [updateUI, totalPages], by simp [updateUI, totalPages]⟩

/-- Witness for C6 at the first-page boundary scenario of the spec. -/
theorem claim6_witness :
    (updateUI 1 0 (some [1])
        { buttons := { prevDisabled := false, nextDisabled := false },
          pages := List.replicate 21 noShadow }).buttons.prevDisabled = true :=
  ((claim6_nav_button_enablement 1 0 (some [1])
      { buttons := { prevDisabled := false, nextDisabled := false },
        pages := List.replicate 21 noShadow } (by decide)).2.2.1 rfl).1

/-- C5: the path-generation rule is a pure function of the index alone:
index 0 yields the distinct cover filename, and every index
`1 ≤ i < totalPages` yields the numeric filename with the decimal digits
zero-padded to the fixed width 3 (and distinct from the cover name).
Being a Lean function, `imagePath` is deterministic: equal indices give
identical paths across runs. -/
theorem claim5_image_path_rule (i : Nat) (h1 : 1 ≤ i) (h2 : i < totalPages) :
    imagePath 0 = "individual_pages/page_000_cover.jpg" ∧
    imagePath i = "individual_pages/page_" ++ padStartZero 3 (Nat.repr i) ++ ".jpg" ∧
    (padStartZero 3 (Nat.repr i)).length = 3 ∧
    imagePath i ≠ imagePath 0 := by
  have key : ∀ j, j < totalPages → 1 ≤ j →
      (padStartZero 3 (Nat.repr j)).length = 3 ∧ imagePath j ≠ imagePath 0 := by
    decide
  refine ⟨rfl, ?_, (key i h2 h1).1, (key i h2 h1).2⟩
  have hne : i ≠ 0 := by omega
  simp [imagePath, hne]

/-- Witness for C5 at index 5. -/
theorem claim5_witness : imagePath 5 = "individual_pages/page_" ++
    padStartZero 3 (Nat.repr 5) ++ ".jpg" :=
  (claim5_image_path_rule 5 (by decide) (by decide)).2.1

/-- C9: every navigation input received while the ready flag `isLoaded` is
false is silently dropped by the handlers `bindEvents` installs: no widget
command is issued (the model's only effect channel), no error is raised and
nothing is queued. -/
theorem claim9_nav_ignored_before_ready (inp : NavInput) :
    handleNav false inp = [] := by
  cases inp with
  | prevClick => rfl
  | nextClick => rfl
  | keydown k => rfl

/-- C8: `initializeTurnJS` checks its prerequisites first: a missing jQuery
runtime or a missing Turn.js plugin produces an error naming that
dependency, with no widget initialization attempted; the ready flag is set
exactly when the result is success, and then only after the widget has been
initialized and the initial page set. -/
theorem claim8_dependency_checks (deps : Deps) :
    (deps.jqueryDefined = false →
      initializeTurnJS deps = ([], Except.error "jQuery is not loaded")) ∧
    (deps.jqueryDefined = true → deps.turnDefined = false →
      initializeTurnJS deps = ([], Except.error "Turn.js is not loaded")) ∧
    (∀ msg, (initializeTurnJS deps).2 = Except.error msg →
      InitStep.turnInit ∉ (initializeTurnJS deps).1) ∧
    (InitStep.setLoadedTrue ∈ (initializeTurnJS deps).1 ↔
      (initializeTurnJS deps).2 = Except.ok ()) ∧
    ((initializeTurnJS deps).2 = Except.ok () →
      (initializeTurnJS deps).1 =
        [InitStep.turnInit, InitStep.uiUpdate 1, InitStep.setLoadedTrue]) := by
  obtain ⟨jq, tn⟩ := deps
  cases jq <;> cases tn <;> simp [initializeTurnJS]

/-- Witness for C8 with jQuery absent. -/
theorem claim8_witness :
    initializeTurnJS { jqueryDefined := false, turnDefined := true } =
      ([], Except.error "jQuery is not loaded") :=
  (claim8_dependency_checks { jqueryDefined := false, turnDefined := true }).1 rfl

/-- C3: characterization of how one `loadImage` call settles: success when
`img.complete` held at request time or when the load signal arrives before
the 30 000 ms timeout; the load-failure rejection when the error signal
arrives first; the timeout rejection when no signal arrives in time; and in
every case the timeout timer is not left pending. -/
theorem claim3_load_settle_contract (env : ImgEnv) (src : String) :
    (env.complete = true →
      loadImage env src = { result := Except.ok (), timerPendingAfter := false }) ∧
    (env.complete = false → env.firstSignal = none →
      loadImage env src =
        { result := Except.error (LoadError.timeout src), timerPendingAfter := false }) ∧
    (∀ t, env.complete = false → env.firstSignal = some (ImgSignal.sigLoad, t) →
      t < 30000 →
      loadImage env src = { result := Except.ok (), timerPendingAfter := false }) ∧
    (∀ t, env.complete = false → env.firstSignal = some (ImgSignal.sigError, t) →
      t < 30000 →
      loadImage env src =
        { result := Except.error (LoadError.failure src), timerPendingAfter := false }) ∧
    (∀ sig t, env.complete = false → env.firstSignal = some (sig, t) → 30000 ≤ t →
      loadImage env src =
        { result := Except.error (LoadError.timeout src), timerPendingAfter := false }) ∧
    (loadImage env src).timerPendingAfter = false := by
  refine ⟨?_, ?_, ?_, ?_, ?_, ?_⟩
  · intro hc
    simp [loadImage, hc]
  · intro hc hn
    simp [loadImage, hc, hn]
  · intro t hc hs ht
    simp [loadImage, hc, hs, ht]
  · intro t hc hs ht
    simp [loadImage, hc, hs, ht]
  · intro sig t hc hs ht
    have hlt : ¬(t < 30000) := by omega
    cases sig <;> simp [loadImage, hc, hs, hlt]
  · simp only [loadImage]
    split
    · rfl
    · split
      · rfl
      · split
        · split <;> rfl
        · rfl

/-- Witness for C3 for an already-complete (cached) image. -/
theorem claim3_witness :
    loadImage { complete := true, firstSignal := none }
        "individual_pages/page_001.jpg" =
      { result := Except.ok (), timerPendingAfter := false } :=
  (claim3_load_settle_contract { complete := true, firstSignal := none }
      "individual_pages/page_001.jpg").1 rfl

theorem seqFrom_length (i k : Nat) : (seqFrom i k).length = k := by
  induction k generalizing i with
  | zero => rfl
  | succ k ih => simp [seqFrom, ih]

theorem map_mkPage_getD (i k j : Nat) (h : j < k) :
    ((seqFrom i k).map mkPage).getD j (mkPage 0) = mkPage (i + j) := by
  induction k generalizing i j with
  | zero => omega
  | succ k ih =>
    cases j with
    | zero => simp [seqFrom]
    | succ m =>
      have := ih (i + 1) m (by omega)
      have harith : i + 1 + m = i + (m + 1) := by omega
      rw [harith] at this
      simpa [seqFrom] using this

theorem mem_seqFrom (i k j : Nat) : j ∈ seqFrom i k ↔ i ≤ j ∧ j < i + k := by
  induction k generalizing i with
  | zero => simp [seqFrom]
  | succ k ih =>
    simp [seqFrom, ih]
    omega

theorem createPagesGo_all_ok (load : Nat → Except LoadError Unit) :
    ∀ (k i : Nat), (∀ j, i ≤ j → j < i + k → load j = Except.ok ()) →
      createPagesGo load i k =
        ((seqFrom i k).flatMap (fun j => [Ev.loadStart j, Ev.append j]),
         (seqFrom i k).map mkPage, none) := by
  intro k
  induction k with
  | zero => intro i h; rfl
  | succ k ih =>
    intro i h
    have hi : load i = Except.ok () := h i (Nat.le_refl i) (by omega)
    have hrec := ih (i + 1) (fun j hj1 hj2 => h j (by omega) (by omega))
    simp only [createPagesGo, hi, hrec, seqFrom]
    simp

theorem createPagesGo_first_error (load : Nat → Except LoadError Unit)
    (e : LoadError) :
    ∀ (k i f : Nat), i ≤ f → f < i + k → load f = Except.error e →
      (∀ j, i ≤ j → j < f → load j = Except.ok ()) →
      createPagesGo load i k =
        ((seqFrom i (f - i)).flatMap (fun j => [Ev.loadStart j, Ev.append j]) ++
           [Ev.loadStart f],
         (seqFrom i (f - i)).map mkPage, some e) := by
  intro k
  induction k with
  | zero => intro i f h1 h2 h3 h4; omega
  | succ k ih =>
    intro i f h1 h2 h3 h4
    by_cases hif : i = f
    · subst hif
      simp only [createPagesGo, h3]
      have hz : i - i = 0 := by omega
      rw [hz]
      simp [seqFrom]
    · have hi : load i = Except.ok () := h4 i (Nat.le_refl i) (by omega)
      have hrec := ih (i + 1) f (by omega) (by omega) h3
        (fun j hj1 hj2 => h4 j (by omega) hj2)
      simp only [createPagesGo, hi, hrec]
      have hfi : f - i = (f - (i + 1)) + 1 := by omega
      rw [hfi]
      simp [seqFrom]

/-- C2: when every image load succeeds, `createPages` for page count `n`
finishes without error with exactly `n` pages in the container, the page at
position `j` being the one built for index `j` (strictly increasing index
order), and its event trace interleaves load and append per index —
`loadStart 0, append 0, loadStart 1, append 1, ...` — so each page is
appended only after its own load settles and before the next load starts. -/
theorem claim2_sequential_pages (n : Nat) (load : Nat → Except LoadError Unit)
    (h : ∀ j, j < n → load j = Except.ok ()) :
    (createPagesRun load n).2.2 = none ∧
    (createPagesRun load n).2.1.length = n ∧
    (∀ j, j < n → (createPagesRun load n).2.1.getD j (mkPage 0) = mkPage j) ∧
    (createPagesRun load n).1 =
      (seqFrom 0 n).flatMap (fun j => [Ev.loadStart j, Ev.append j]) := by
  have e := createPagesGo_all_ok load n 0 (fun j hj1 hj2 => h j (by omega))
  unfold createPagesRun
  rw [e]
  refine ⟨rfl, ?_, ?_, rfl⟩
  · simp [seqFrom_length]
  · intro j hj
    have hg := map_mkPage_getD 0 n j hj
    simpa using hg

/-- Witness for C2 with two pages, every load succeeding. -/
theorem claim2_witness :
    (createPagesRun (fun _ => Except.ok ()) 2).2.1.length = 2 :=
  (claim2_sequential_pages 2 (fun _ => Except.ok ()) (fun _ _ => rfl)).2.1

/-- C4: if the load for index `f` fails while every earlier load succeeded,
the pipeline aborts: the pages appended are exactly those for indices below
`f`, no load request is issued beyond index `f` and no append happens at or
beyond `f`, the error propagates from `createPages` to `init` whose catch
block shows its message, the ready flag stays false and no navigation
bindings are activated. -/
theorem claim4_failure_aborts (n f : Nat) (load : Nat → Except LoadError Unit)
    (e : LoadError) (deps : Deps) (hf : f < n) (he : load f = Except.error e)
    (hok : ∀ j, j < f → load j = Except.ok ()) :
    (createPagesRun load n).2.2 = some e ∧
    (createPagesRun load n).2.1 = (seqFrom 0 f).map mkPage ∧
    (∀ j, Ev.loadStart j ∈ (createPagesRun load n).1 → j ≤ f) ∧
    (∀ j, Ev.append j ∈ (createPagesRun load n).1 → j < f) ∧
    (initRun n load deps).isLoaded = false ∧
    (initRun n load deps).eventsBound = false ∧
    (initRun n load deps).errorShown = some (messageOfLoadError e) := by
  have eg := createPagesGo_first_error load e n 0 f (Nat.zero_le f) (by omega) he
    (fun j hj1 hj2 => hok j hj2)
  have e0 : f - 0 = f := by omega
  rw [e0] at eg
  have hrun : createPagesRun load n =
      ((seqFrom 0 f).flatMap (fun j => [Ev.loadStart j, Ev.append j]) ++
         [Ev.loadStart f],
       (seqFrom 0 f).map mkPage, some e) := by
    unfold createPagesRun
    exact eg
  refine ⟨by rw [hrun], by rw [hrun], ?_, ?_, ?_, ?_, ?_⟩
  · intro j hj
    rw [hrun] at hj
    simp [List.mem_append, List.mem_flatMap, mem_seqFrom] at hj
    omega
  · intro j hj
    rw [hrun] at hj
    simp [List.mem_append, List.mem_flatMap, mem_seqFrom] at hj
    omega
  · simp [initRun, hrun]
  · simp [initRun, hrun]
  · simp [initRun, hrun]

/-- Witness for C4: a single-page run whose very first load times out. -/
theorem claim4_witness :
    (initRun 1 (fun _ => Except.error (LoadError.timeout "individual_pages/page_000_cover.jpg"))
        { jqueryDefined := true, turnDefined := true }).isLoaded = false :=
  (claim4_failure_aborts 1 0
      (fun _ => Except.error (LoadError.timeout "individual_pages/page_000_cover.jpg"))
      (LoadError.timeout "individual_pages/page_000_cover.jpg")
      { jqueryDefined := true, turnDefined := true }
      (by decide) rfl (fun j hj => absurd hj (Nat.not_lt_zero j))).2.2.2.2.1

end TurnJSBook
